import Mathlib

/-!
Shallow embedding of `src/code/BARTfunc.py` (function `main`, the BART worker
node).  The per-run constants computed during setup (lines 169-322 of the
source) are collected in a `Config`; the mutable buffers that persist across
loop iterations (`profiles[0]` the temperature row, `profiles[1:]` the
abundance rows, and `bandflux`) form a `State`.  One execution of the loop
body (lines 329-384) is the function `pass`, which also records the collective
communication calls it makes as a trace of `Ev` events; the `while niter >= 0`
loop (lines 327-328) is `mainLoop`.

External collaborators that the source calls but whose code is not part of
this repository are modelled as opaque-function *fields* of `Config`, applied
exactly where the source applies them:
  * `ptgen`   - `pt.PT_generator(pressure, params[0:nPT], PTargs)`; the
    `pressure` array and `PTargs` are per-run constants absorbed into the
    closure; a `ValueError` ("non-physical profile") is `none`.
  * `engine`  - the spawned `transit` peer: the spectrum gathered back for a
    scattered flattened profile matrix.
  * `bandintegrate` - `w.bandintegrate(spectrum, specwn, nifilter, wnindices)`.
  * `pow10`   - the real-valued map `x => 10.0 ** x` used at line 354 (real
    exponentiation is not rational-valued, so it is kept abstract; no claim
    depends on its values).
All numbers are modelled as rationals.
-/

set_option maxRecDepth 4000

namespace BARTfunc

/-- Per-run constants of `main` (command-line options, TEP/atmosphere file
contents, handshake values, and the filter tables built at setup). -/
structure Config where
  /-- number of free parameters received at the handshake broadcast (line 175) -/
  npars : ℕ
  /-- number of PT free parameters, `nPT = len(params) - len(molfit)` (line 203) -/
  nPT : ℕ
  /-- number of molecular free parameters, `nmolfit = len(molfit)` (line 202) -/
  nmolfit : ℕ
  /-- `imol` : species index of each fitted molecule (lines 222-224) -/
  imol : List ℕ
  /-- lower temperature bound (option `--Tmin`, default 400) -/
  Tmin : ℚ
  /-- upper temperature bound (option `--Tmax`, default 3000) -/
  Tmax : ℚ
  /-- number of atmospheric layers (line 209) -/
  nlayers : ℕ
  /-- number of species in the atmosphere file (line 210) -/
  nspecies : ℕ
  /-- index of H2 in the species list (line 215) -/
  iH2 : ℕ
  /-- index of He in the species list (line 216) -/
  iHe : ℕ
  /-- baseline abundances read from the atmosphere file, `[layer][species]` (line 206) -/
  abundances : List (List ℚ)
  /-- number of filters (line 289) -/
  nfilters : ℕ
  /-- solution geometry, `"transit"` or `"eclipse"` (option `--solution`) -/
  solution : String
  /-- planet-to-star radius ratio (line 286) -/
  rprs : ℚ
  /-- wavenumber array gathered from transit at setup (line 276) -/
  specwn : List ℚ
  /-- normalized interpolated filter responses, one per filter (line 295) -/
  nifilter : List (List ℚ)
  /-- interpolated stellar flux per filter (line 296) -/
  istarfl : List (List ℚ)
  /-- wavenumber index set per filter (line 297) -/
  wnindices : List (List ℕ)
  /-- external PT generator on the PT-parameter slice; `none` models the
  `ValueError` raised for a non-physical profile (lines 337-338) -/
  ptgen : List ℚ → Option (List ℚ)
  /-- the opaque transit engine: flattened profile matrix to gathered spectrum
  (lines 363, 366) -/
  engine : List ℚ → List ℚ
  /-- external band-integration reduction (lines 374, 377) -/
  bandintegrate : List ℚ → List ℚ → List ℚ → List ℕ → ℚ
  /-- abstract `x => 10.0 ** x` (line 354) -/
  pow10 : ℚ → ℚ

/-- Column `i` of the baseline abundance matrix: `abundances[:, i]`. -/
def atmCol (abund : List (List ℚ)) (i : ℕ) : List ℚ :=
  abund.map (fun row => row.getD i 0)

/-- Per-layer H2/He abundance ratio computed once at setup:
`ratio = abundances[:,iH2] / abundances[:,iHe]` (line 218), read at layer `j`. -/
def Config.ratio (cfg : Config) (j : ℕ) : ℚ :=
  (atmCol cfg.abundances cfg.iH2).getD j 0 / (atmCol cfg.abundances cfg.iHe).getD j 0

/-- The mutable buffers of `main` that live across loop iterations:
`profiles[0]` (temperature row), `profiles[1:]` (the `nspecies` abundance
rows), and `bandflux`. -/
structure State where
  temp : List ℚ
  abund : List (List ℚ)
  bandflux : List ℚ
deriving DecidableEq

/-- The buffers as allocated before the loop: `profiles = np.zeros(...)`
(line 240) with the abundance rows filled from the atmosphere file
(lines 245-246: `profiles[i+1] = abundances[:, i]`), and
`bandflux = np.zeros(nfilters)` (line 319). -/
def initState (cfg : Config) : State :=
  { temp := List.replicate cfg.nlayers 0
    abund := (List.range cfg.nspecies).map (fun i => atmCol cfg.abundances i)
    bandflux := List.replicate cfg.nfilters 0 }

/-- A collective communication event: a scatter received from or a gather sent
to the driver (`comm`), or a scatter sent to or a gather received from the
transit engine (`transitcomm`). -/
inductive Ev where
  | dScatterIn (v : List ℚ)
  | dGatherOut (v : List ℚ)
  | eScatterOut (v : List ℚ)
  | eGatherIn (v : List ℚ)
deriving DecidableEq

/-- Is the event a call on the driver channel `comm`? -/
def isDriverEv : Ev → Bool
  | .dScatterIn _ => true
  | .dGatherOut _ => true
  | .eScatterOut _ => false
  | .eGatherIn _ => false

/-- Is the event a call on the engine channel `transitcomm`? -/
def isEngineEv (e : Ev) : Bool := !(isDriverEv e)

/-- The sub-trace of driver-channel calls. -/
def driverEvs (evs : List Ev) : List Ev := evs.filter isDriverEv

/-- The sub-trace of engine-channel calls. -/
def engineEvs (evs : List Ev) : List Ev := evs.filter isEngineEv

/-- Does the event record `mu.comm_scatter(comm, params)`? -/
def isDScatter : Ev → Bool
  | .dScatterIn _ => true
  | _ => false

/-- Does the event record `mu.comm_gather(comm, _)`? -/
def isDGather : Ev → Bool
  | .dGatherOut _ => true
  | _ => false

/-- Number of driver scatter-ins in a trace. -/
def countDScatter (evs : List Ev) : ℕ := (evs.filter isDScatter).length

/-- Number of driver gather-outs in a trace. -/
def countDGather (evs : List Ev) : ℕ := (evs.filter isDGather).length

/-- The temperature row after the build attempt of a pass, lines 336-340:
`profiles[0] = pt.PT_generator(pressure, params[0:nPT], PTargs)[::-1]`, the
`ValueError` being caught and leaving the row as it was. -/
def passTemp (cfg : Config) (s : State) (params : List ℚ) : List ℚ :=
  match cfg.ptgen (params.take cfg.nPT) with
  | some t => t.reverse
  | none => s.temp

/-- The bounds check of line 343:
`np.any(profiles[0] < Tmin) or np.any(profiles[0] > Tmax)`. -/
def outOfBounds (cfg : Config) (temp : List ℚ) : Bool :=
  temp.any (fun t => decide (t < cfg.Tmin)) || temp.any (fun t => decide (cfg.Tmax < t))

/-- Abundance scaling, lines 351-354: for each fitted molecule `i`,
`profiles[m+1] = abundances[:, m] * 10.0**params[nPT+i]` with `m = imol[i]`. -/
def scaleAbund (cfg : Config) (params : List ℚ) (rows : List (List ℚ)) : List (List ℚ) :=
  (List.range cfg.nmolfit).foldl
    (fun rs i =>
      rs.set (cfg.imol.getD i 0)
        ((atmCol cfg.abundances (cfg.imol.getD i 0)).map
          (fun a => a * cfg.pow10 (params.getD (cfg.nPT + i) 0))))
    rows

/-- `np.sum(profiles[imetals+1], axis=0)` at layer `j` (line 356), where
`imetals` are the species indices other than `iH2` and `iHe` (line 220). -/
def metalSum (cfg : Config) (rows : List (List ℚ)) (j : ℕ) : ℚ :=
  ∑ i ∈ (Finset.range cfg.nspecies).filter (fun i => i ≠ cfg.iH2 ∧ i ≠ cfg.iHe),
    (rows.getD i []).getD j 0

/-- The H2/He update, lines 355-358:
`q = 1.0 - np.sum(profiles[imetals+1], axis=0)`;
`profiles[iH2+1] = ratio * q / (1.0 + ratio)`;
`profiles[iHe+1] = q / (1.0 + ratio)`. -/
def updateH2He (cfg : Config) (rows : List (List ℚ)) : List (List ℚ) :=
  let q : ℕ → ℚ := fun j => 1 - metalSum cfg rows j
  let h2row := (List.range cfg.nlayers).map (fun j => cfg.ratio j * q j / (1 + cfg.ratio j))
  let herow := (List.range cfg.nlayers).map (fun j => q j / (1 + cfg.ratio j))
  (rows.set cfg.iH2 h2row).set cfg.iHe herow

/-- The total abundance at layer `j`: the sum of the `nspecies` abundance rows
(rows 1..nspecies of the source's `profiles` matrix) at that layer. -/
def layerAbundSum (cfg : Config) (rows : List (List ℚ)) (j : ℕ) : ℚ :=
  ∑ i ∈ Finset.range cfg.nspecies, (rows.getD i []).getD j 0

/-- `profiles.flatten()` (line 363): row 0 (temperature) followed by the
abundance rows, row-major. -/
def flattenProfiles (temp : List ℚ) (abund : List (List ℚ)) : List ℚ :=
  temp ++ abund.flatten

/-- `spectrum[wnindices[i]]`: the spectrum samples at a filter's index set. -/
def sampleAt (spectrum : List ℚ) (idxs : List ℕ) : List ℚ :=
  idxs.map (fun k => spectrum.getD k 0)

/-- The output-converter loop, lines 371-378.  For each filter `i`:
eclipse: `fluxrat = (spectrum[wnindices[i]]/istarfl[i]) * rprs*rprs;
bandflux[i] = w.bandintegrate(fluxrat, specwn, nifilter[i], wnindices[i])`;
transit: `bandflux[i] = w.bandintegrate(spectrum[wnindices[i]], specwn,
nifilter[i], wnindices[i])`; any other solution string leaves `bandflux[i]`
at its previous value (the loop body assigns nothing). -/
def reduceSpectrum (cfg : Config) (spectrum : List ℚ) (prev : List ℚ) : List ℚ :=
  (List.range cfg.nfilters).map (fun i =>
    if cfg.solution = "eclipse" then
      cfg.bandintegrate
        (((sampleAt spectrum (cfg.wnindices.getD i [])).zip (cfg.istarfl.getD i [])).map
          (fun p => p.1 / p.2 * cfg.rprs * cfg.rprs))
        cfg.specwn (cfg.nifilter.getD i []) (cfg.wnindices.getD i [])
    else if cfg.solution = "transit" then
      cfg.bandintegrate (sampleAt spectrum (cfg.wnindices.getD i []))
        cfg.specwn (cfg.nifilter.getD i []) (cfg.wnindices.getD i [])
    else prev.getD i 0)

/-- One execution of the loop body, lines 329-384, returning the updated
buffers and the trace of collective calls made, in order:
1. `mu.comm_scatter(comm, params)` (line 331);
2. the build attempt (lines 336-340), then the bounds check (line 343);
3. if out of bounds: `mu.comm_gather(comm, -np.ones(nfilters))` and
   `continue` (lines 345-346);
4. otherwise: abundance scaling and H2/He update (lines 351-358),
   `mu.comm_scatter(transitcomm, profiles.flatten())` (line 363),
   `mu.comm_gather(transitcomm, spectrum)` (line 366), band integration
   (lines 371-378), and `mu.comm_gather(comm, bandflux)` (line 383). -/
def pass (cfg : Config) (s : State) (params : List ℚ) : State × List Ev :=
  let temp1 := passTemp cfg s params
  if outOfBounds cfg temp1 then
    ({ s with temp := temp1 },
      [.dScatterIn params, .dGatherOut (List.replicate cfg.nfilters (-1))])
  else
    let abund2 := updateH2He cfg (scaleAbund cfg params s.abund)
    let payload := flattenProfiles temp1 abund2
    let spectrum := cfg.engine payload
    let band := reduceSpectrum cfg spectrum s.bandflux
    ({ temp := temp1, abund := abund2, bandflux := band },
      [.dScatterIn params, .eScatterOut payload, .eGatherIn spectrum, .dGatherOut band])

/-- The main MCMC loop, lines 327-328: `while niter >= 0: niter -= 1; <body>`.
`seq k` is the parameter vector the driver scatters on the `k`-th pass (the
source's `params` buffer has length `npars`; the claims carry that as a
hypothesis).  The decrement happens before the body but the body never reads
`niter`, so checking the guard and recursing on `niter - 1` is the same
control flow. -/
def mainLoop (cfg : Config) (seq : ℕ → List ℚ) (k : ℕ) (s : State) (niter : ℤ) :
    State × List Ev :=
  if _h : 0 ≤ niter then
    let r1 := pass cfg s (seq k)
    let r2 := mainLoop cfg seq (k + 1) r1.1 (niter - 1)
    (r2.1, r1.2 ++ r2.2)
  else (s, [])
termination_by (niter + 1).toNat
decreasing_by omega

/-- The whole iteration phase: the loop started on the freshly allocated
buffers with the iteration budget `niter` received at the handshake
(line 175). -/
def runMain (cfg : Config) (seq : ℕ → List ℚ) (niter : ℤ) : State × List Ev :=
  mainLoop cfg seq 0 (initState cfg) niter

/-- A small concrete run configuration used to instantiate the theorems below:
one layer, three species (H2, He and one fitted metal with baseline abundances
0.8, 0.2, 1/10000), one filter, transit geometry, default temperature bounds
400..3000.  Its `ptgen` returns the head of the PT-parameter slice as the
single-layer temperature, and fails (the `ValueError` case) on an empty
slice, so concrete inputs can exercise every branch of the pass. -/
def cfgEx : Config :=
  { npars := 2
    nPT := 1
    nmolfit := 1
    imol := [2]
    Tmin := 400
    Tmax := 3000
    nlayers := 1
    nspecies := 3
    iH2 := 0
    iHe := 1
    abundances := [[4/5, 1/5, 1/10000]]
    nfilters := 1
    solution := "transit"
    rprs := 1
    specwn := [5]
    nifilter := [[1]]
    istarfl := [[9]]
    wnindices := [[0]]
    ptgen := fun ps => match ps with | [] => none | t :: _ => some [t]
    engine := fun _ => [2]
    bandintegrate := fun _ _ _ _ => 7
    pow10 := fun _ => 100 }

/-- The parameter sequence used with `cfgEx`: every pass proposes temperature
500 (in bounds) and molecular exponent 0. -/
def seqEx : ℕ → List ℚ := fun _ => [500, 0]

/-- Unfolding of a rejected pass (lines 343-346): only the temperature row is
updated and the driver receives the sentinel vector. -/
theorem pass_rejected {cfg : Config} {s : State} {params : List ℚ}
    (h : outOfBounds cfg (passTemp cfg s params) = true) :
    pass cfg s params =
      ({ s with temp := passTemp cfg s params },
        [.dScatterIn params, .dGatherOut (List.replicate cfg.nfilters (-1))]) := by
  simp [pass, h]

/-- Unfolding of an accepted pass (lines 350-384). -/
theorem pass_accepted {cfg : Config} {s : State} {params : List ℚ}
    (h : outOfBounds cfg (passTemp cfg s params) = false) :
    pass cfg s params =
      ({ temp := passTemp cfg s params
         abund := updateH2He cfg (scaleAbund cfg params s.abund)
         bandflux := reduceSpectrum cfg
           (cfg.engine (flattenProfiles (passTemp cfg s params)
             (updateH2He cfg (scaleAbund cfg params s.abund)))) s.bandflux },
        [.dScatterIn params,
         .eScatterOut (flattenProfiles (passTemp cfg s params)
           (updateH2He cfg (scaleAbund cfg params s.abund))),
         .eGatherIn (cfg.engine (flattenProfiles (passTemp cfg s params)
           (updateH2He cfg (scaleAbund cfg params s.abund)))),
         .dGatherOut (reduceSpectrum cfg
           (cfg.engine (flattenProfiles (passTemp cfg s params)
             (updateH2He cfg (scaleAbund cfg params s.abund)))) s.bandflux)]) := by
  simp [pass, h]

/-- The observable vector always has one entry per filter. -/
theorem reduceSpectrum_length (cfg : Config) (spectrum prev : List ℚ) :
    (reduceSpectrum cfg spectrum prev).length = cfg.nfilters := by
  simp [reduceSpectrum]

/-- C1: on every pass of the iteration loop — whether it ends in
InvalidProfile, OutOfBounds, or success — the worker performs on the driver
channel exactly one scatter-in of `paramCount` doubles followed by exactly one
gather-out of `filterCount` doubles, and nothing else, in that order. -/
theorem c1_driver_exchange_per_pass (cfg : Config) (s : State) (params : List ℚ)
    (h : params.length = cfg.npars) :
    ∃ w : List ℚ,
      driverEvs (pass cfg s params).2 = [Ev.dScatterIn params, Ev.dGatherOut w] ∧
      params.length = cfg.npars ∧ w.length = cfg.nfilters := by
  cases hb : outOfBounds cfg (passTemp cfg s params) with
  | false =>
    refine ⟨reduceSpectrum cfg
        (cfg.engine (flattenProfiles (passTemp cfg s params)
          (updateH2He cfg (scaleAbund cfg params s.abund)))) s.bandflux,
      ?_, h, reduceSpectrum_length cfg _ s.bandflux⟩
    rw [pass_accepted hb]
    simp [driverEvs, isDriverEv]
  | true =>
    refine ⟨List.replicate cfg.nfilters (-1), ?_, h, List.length_replicate _ _⟩
    rw [pass_rejected hb]
    simp [driverEvs, isDriverEv]

/-- C1 witness: the per-pass driver exchange, instantiated at the concrete
configuration `cfgEx` with the in-bounds proposal `[500, 0]`. -/
theorem c1_driver_exchange_per_pass_witness :
    ([(500 : ℚ), 0].length = cfgEx.npars) ∧
      ∃ w : List ℚ,
        driverEvs (pass cfgEx (initState cfgEx) [500, 0]).2
            = [Ev.dScatterIn [500, 0], Ev.dGatherOut w] ∧
          [(500 : ℚ), 0].length = cfgEx.npars ∧ w.length = cfgEx.nfilters :=
  ⟨by decide, c1_driver_exchange_per_pass cfgEx (initState cfgEx) [500, 0] (by decide)⟩

/-- C3: whenever the temperature row produced by the build step has an entry
strictly below `Tmin` or strictly above `Tmax`, the pass's whole trace is the
driver scatter-in followed by a driver gather-out of exactly `filterCount`
sentinel entries `-1`, and the engine channel is not touched. -/
theorem c3_out_of_bounds_sentinel (cfg : Config) (s : State) (params : List ℚ)
    (h : ∃ t ∈ passTemp cfg s params, t < cfg.Tmin ∨ cfg.Tmax < t) :
    (pass cfg s params).2
        = [Ev.dScatterIn params, Ev.dGatherOut (List.replicate cfg.nfilters (-1))] ∧
      engineEvs (pass cfg s params).2 = [] := by
  have hb : outOfBounds cfg (passTemp cfg s params) = true := by
    rcases h with ⟨t, ht, hlo | hhi⟩
    · exact Bool.or_eq_true_iff.mpr (Or.inl (List.any_eq_true.mpr ⟨t, ht, by simpa using hlo⟩))
    · exact Bool.or_eq_true_iff.mpr (Or.inr (List.any_eq_true.mpr ⟨t, ht, by simpa using hhi⟩))
  rw [pass_rejected hb]
  simp [engineEvs, isEngineEv, isDriverEv]

/-- C3 witness: at `cfgEx`, the proposal `[100, 0]` generates the temperature
row `[100]`, below `Tmin = 400`, and the pass emits exactly the sentinel. -/
theorem c3_out_of_bounds_sentinel_witness :
    (∃ t ∈ passTemp cfgEx (initState cfgEx) [100, 0], t < cfgEx.Tmin ∨ cfgEx.Tmax < t) ∧
      ((pass cfgEx (initState cfgEx) [100, 0]).2
          = [Ev.dScatterIn [100, 0], Ev.dGatherOut (List.replicate cfgEx.nfilters (-1))] ∧
        engineEvs (pass cfgEx (initState cfgEx) [100, 0]).2 = []) :=
  ⟨by decide, c3_out_of_bounds_sentinel cfgEx (initState cfgEx) [100, 0] (by decide)⟩

/-- C10: on a pass rejected by the bounds check, the abundance rows (and the
`bandflux` buffer) are left exactly as they were before the pass; only the
temperature row is overwritten (with the build step's output), because the
abundance scaling and the H2/He recomputation of lines 350-358 run only after
the bounds check of line 343 passes. -/
theorem c10_rejected_pass_frame (cfg : Config) (s : State) (params : List ℚ)
    (h : outOfBounds cfg (passTemp cfg s params) = true) :
    (pass cfg s params).1.abund = s.abund ∧
      (pass cfg s params).1.bandflux = s.bandflux ∧
      (pass cfg s params).1.temp = passTemp cfg s params := by
  rw [pass_rejected h]
  exact ⟨rfl, rfl, rfl⟩

/-- C10 witness: the rejected proposal `[100, 0]` at `cfgEx` leaves the
baseline abundance rows and the `bandflux` buffer untouched. -/
theorem c10_rejected_pass_frame_witness :
    (outOfBounds cfgEx (passTemp cfgEx (initState cfgEx) [100, 0]) = true) ∧
      ((pass cfgEx (initState cfgEx) [100, 0]).1.abund = (initState cfgEx).abund ∧
        (pass cfgEx (initState cfgEx) [100, 0]).1.bandflux = (initState cfgEx).bandflux ∧
        (pass cfgEx (initState cfgEx) [100, 0]).1.temp
          = passTemp cfgEx (initState cfgEx) [100, 0]) :=
  ⟨by decide, c10_rejected_pass_frame cfgEx (initState cfgEx) [100, 0] (by decide)⟩

/-- C5 counterexample: the claim says ProfileBuilder.build completes in full —
abundance scaling and H2/He recomputation included — before BoundsGuard.check
is evaluated.  On the concrete out-of-bounds proposal `[100, 0]` at `cfgEx`
the pass is rejected, yet its abundance rows are the untouched baseline rows
and differ from what the completed build would have produced, so no abundance
scaling preceded the check. -/
theorem c5_scaling_not_before_check :
    outOfBounds cfgEx (passTemp cfgEx (initState cfgEx) [100, 0]) = true ∧
      (pass cfgEx (initState cfgEx) [100, 0]).1.abund
          ≠ updateH2He cfgEx (scaleAbund cfgEx [100, 0] (initState cfgEx).abund) := by
  constructor
  · decide
  · norm_num [pass, passTemp, outOfBounds, initState, atmCol, cfgEx, scaleAbund, updateH2He,
      metalSum, Config.ratio, Finset.sum_filter, Finset.sum_range_succ, List.range_succ]

/-- C5 amended: only the temperature-row generation precedes the bounds check;
the abundance scaling by `10^exponent` and the H2/He recomputation are
performed only on passes where the check succeeds, in which case they complete
before the engine exchange. -/
theorem c5_build_order (cfg : Config) (s : State) (params : List ℚ) :
    (pass cfg s params).1.temp = passTemp cfg s params ∧
      (pass cfg s params).1.abund
        = (if outOfBounds cfg (passTemp cfg s params) then s.abund
           else updateH2He cfg (scaleAbund cfg params s.abund)) := by
  cases hb : outOfBounds cfg (passTemp cfg s params) with
  | false => rw [pass_accepted hb]; simp
  | true => rw [pass_rejected hb]; simp

/-- C7: the bounds check lets the pass proceed to the engine exchange exactly
when every temperature-row entry lies within `[Tmin, Tmax]` inclusive — entries
equal to a bound pass, entries strictly outside are rejected. -/
theorem c7_bounds_check_iff (cfg : Config) (s : State) (params : List ℚ) :
    engineEvs (pass cfg s params).2 ≠ []
      ↔ ∀ t ∈ passTemp cfg s params, cfg.Tmin ≤ t ∧ t ≤ cfg.Tmax := by
  have hchar : outOfBounds cfg (passTemp cfg s params) = false
      ↔ ∀ t ∈ passTemp cfg s params, cfg.Tmin ≤ t ∧ t ≤ cfg.Tmax := by
    simp only [outOfBounds, Bool.or_eq_false_iff, List.any_eq_false, decide_eq_true_eq,
      not_lt]
    constructor
    · rintro ⟨h1, h2⟩ t ht
      exact ⟨h1 t ht, h2 t ht⟩
    · intro h
      exact ⟨fun t ht => (h t ht).1, fun t ht => (h t ht).2⟩
  cases hb : outOfBounds cfg (passTemp cfg s params) with
  | false =>
    rw [pass_accepted hb]
    simpa [engineEvs, isEngineEv, isDriverEv] using hchar.mp hb
  | true =>
    have h2 : (pass cfg s params).2
        = [Ev.dScatterIn params, Ev.dGatherOut (List.replicate cfg.nfilters (-1))] := by
      rw [pass_rejected hb]
    rw [h2]
    constructor
    · intro hne
      exact absurd (show engineEvs [Ev.dScatterIn params,
          Ev.dGatherOut (List.replicate cfg.nfilters (-1))] = [] by
            simp [engineEvs, isEngineEv, isDriverEv]) hne
    · intro hall
      have hcontra := hchar.mpr hall
      rw [hb] at hcontra
      simp at hcontra

/-- C4 counterexample: the claim says an InvalidProfile pass substitutes the
sentinel observable for that pass's result to the driver.  At `cfgEx`, from a
state whose retained temperature row `[500]` is in bounds, the empty parameter
vector makes the generator fail (`ptgen` returns `none`), yet the pass
contacts the engine and gathers the genuinely reduced observable `[7]` to the
driver — not the sentinel. -/
theorem c4_invalid_profile_not_sentinel :
    cfgEx.ptgen (List.take cfgEx.nPT []) = none ∧
      driverEvs (pass cfgEx
          { temp := [500], abund := [[4/5], [1/5], [1/10000]], bandflux := [0] } []).2
        ≠ [Ev.dScatterIn [], Ev.dGatherOut (List.replicate cfgEx.nfilters (-1))] := by
  constructor
  · decide
  · norm_num [pass, passTemp, outOfBounds, initState, atmCol, cfgEx, scaleAbund, updateH2He,
      metalSum, Config.ratio, Finset.sum_filter, Finset.sum_range_succ, List.range_succ,
      flattenProfiles, reduceSpectrum, sampleAt, driverEvs, isDriverEv]

/-- C4 amended: on an InvalidProfile pass the worker proceeds with the
retained temperature row through the normal bounds check: the driver receives
the sentinel vector exactly when that row is out of bounds; otherwise the pass
runs the full physics on the stale profile and the driver receives the
normally reduced observable.  In both cases the loop continues. -/
theorem c4_invalid_profile_stale_row (cfg : Config) (s : State) (params : List ℚ)
    (hfail : cfg.ptgen (params.take cfg.nPT) = none) :
    passTemp cfg s params = s.temp ∧
      (outOfBounds cfg s.temp = true →
        (pass cfg s params).2
          = [Ev.dScatterIn params, Ev.dGatherOut (List.replicate cfg.nfilters (-1))]) ∧
      (outOfBounds cfg s.temp = false →
        ∃ w : List ℚ,
          (pass cfg s params).2
            = [Ev.dScatterIn params,
               Ev.eScatterOut (flattenProfiles s.temp
                 (updateH2He cfg (scaleAbund cfg params s.abund))),
               Ev.eGatherIn w,
               Ev.dGatherOut (reduceSpectrum cfg w s.bandflux)]) := by
  have htemp : passTemp cfg s params = s.temp := by
    simp [passTemp, hfail]
  refine ⟨htemp, fun hout => ?_, fun hin => ?_⟩
  · rw [pass_rejected (htemp ▸ hout)]
  · refine ⟨cfg.engine (flattenProfiles s.temp
      (updateH2He cfg (scaleAbund cfg params s.abund))), ?_⟩
    rw [pass_accepted (htemp ▸ hin)]
    rw [htemp]

/-- C4 amended witness: at `cfgEx` from the freshly allocated state (all-zero
temperature row, out of bounds for `Tmin = 400`), the failing build falls into
the sentinel branch. -/
theorem c4_invalid_profile_stale_row_witness :
    (cfgEx.ptgen (List.take cfgEx.nPT []) = none) ∧
      (passTemp cfgEx (initState cfgEx) [] = (initState cfgEx).temp ∧
        (outOfBounds cfgEx (initState cfgEx).temp = true →
          (pass cfgEx (initState cfgEx) []).2
            = [Ev.dScatterIn [], Ev.dGatherOut (List.replicate cfgEx.nfilters (-1))]) ∧
        (outOfBounds cfgEx (initState cfgEx).temp = false →
          ∃ w : List ℚ,
            (pass cfgEx (initState cfgEx) []).2
              = [Ev.dScatterIn [],
                 Ev.eScatterOut (flattenProfiles (initState cfgEx).temp
                   (updateH2He cfgEx (scaleAbund cfgEx [] (initState cfgEx).abund))),
                 Ev.eGatherIn w,
                 Ev.dGatherOut (reduceSpectrum cfgEx w (initState cfgEx).bandflux)])) :=
  ⟨by decide, c4_invalid_profile_stale_row cfgEx (initState cfgEx) [] (by decide)⟩

/-- C9: when the generator fails on the very first pass, the temperature row
is still the all-zeros allocation of line 240; with `Tmin > 0` (and at least
one layer) the bounds check therefore rejects the pass and the driver receives
the sentinel without any engine contact. -/
theorem c9_first_pass_invalid_rejected (cfg : Config) (params : List ℚ)
    (hfail : cfg.ptgen (params.take cfg.nPT) = none)
    (hT : 0 < cfg.Tmin) (hl : 0 < cfg.nlayers) :
    passTemp cfg (initState cfg) params = List.replicate cfg.nlayers 0 ∧
      (pass cfg (initState cfg) params).2
        = [Ev.dScatterIn params, Ev.dGatherOut (List.replicate cfg.nfilters (-1))] ∧
      engineEvs (pass cfg (initState cfg) params).2 = [] := by
  have htemp : passTemp cfg (initState cfg) params = List.replicate cfg.nlayers 0 := by
    simp [passTemp, hfail, initState]
  have hb : outOfBounds cfg (passTemp cfg (initState cfg) params) = true := by
    rw [htemp]
    refine Bool.or_eq_true_iff.mpr (Or.inl (List.any_eq_true.mpr ⟨0, ?_, by simpa using hT⟩))
    exact List.mem_replicate.mpr ⟨by omega, rfl⟩
  refine ⟨htemp, ?_, ?_⟩
  · rw [pass_rejected hb]
  · rw [pass_rejected hb]
    simp [engineEvs, isEngineEv, isDriverEv]

/-- C9 witness: at `cfgEx` (where `Tmin = 400 > 0` and there is one layer) the
empty parameter vector makes the first-pass build fail and the pass is
rejected with the sentinel. -/
theorem c9_first_pass_invalid_rejected_witness :
    (cfgEx.ptgen (List.take cfgEx.nPT []) = none ∧ 0 < cfgEx.Tmin ∧ 0 < cfgEx.nlayers) ∧
      (passTemp cfgEx (initState cfgEx) [] = List.replicate cfgEx.nlayers 0 ∧
        (pass cfgEx (initState cfgEx) []).2
          = [Ev.dScatterIn [], Ev.dGatherOut (List.replicate cfgEx.nfilters (-1))] ∧
        engineEvs (pass cfgEx (initState cfgEx) []).2 = []) :=
  ⟨⟨by decide, by decide, by decide⟩,
    c9_first_pass_invalid_rejected cfgEx [] (by decide) (by decide) (by decide)⟩

/-- Every pass makes exactly one driver scatter-in. -/
theorem countDScatter_pass (cfg : Config) (s : State) (params : List ℚ) :
    countDScatter (pass cfg s params).2 = 1 := by
  cases hb : outOfBounds cfg (passTemp cfg s params) with
  | false => rw [pass_accepted hb]; simp [countDScatter, isDScatter]
  | true => rw [pass_rejected hb]; simp [countDScatter, isDScatter]

/-- Every pass makes exactly one driver gather-out. -/
theorem countDGather_pass (cfg : Config) (s : State) (params : List ℚ) :
    countDGather (pass cfg s params).2 = 1 := by
  cases hb : outOfBounds cfg (passTemp cfg s params) with
  | false => rw [pass_accepted hb]; simp [countDGather, isDGather]
  | true => rw [pass_rejected hb]; simp [countDGather, isDGather]

/-- The loop `while niter >= 0` performs `(niter+1).toNat` driver scatter-ins
and as many driver gather-outs: one pair per pass, one pass for each counter
value `niter, niter-1, ..., 0`. -/
theorem count_mainLoop (cfg : Config) (seq : ℕ → List ℚ) :
    ∀ (n : ℕ) (k : ℕ) (s : State) (niter : ℤ), (niter + 1).toNat = n →
      countDScatter (mainLoop cfg seq k s niter).2 = n ∧
      countDGather (mainLoop cfg seq k s niter).2 = n := by
  intro n
  induction n with
  | zero =>
    intro k s niter hn
    have hneg : ¬ 0 ≤ niter := by omega
    rw [mainLoop]
    simp [hneg, countDScatter, countDGather]
  | succ n ih =>
    intro k s niter hn
    have hpos : 0 ≤ niter := by omega
    have hrec := ih (k + 1) (pass cfg s (seq k)).1 (niter - 1) (by omega)
    rw [mainLoop]
    simp only [hpos, dif_pos, countDScatter, countDGather, List.filter_append,
      List.length_append]
    have h1 := countDScatter_pass cfg s (seq k)
    have h2 := countDGather_pass cfg s (seq k)
    simp only [countDScatter, countDGather] at h1 h2 hrec
    omega

/-- C2 counterexample: the claim says iteration budget `N = 3` yields exactly
3 passes and no 4th.  At the concrete configuration `cfgEx` with every
proposal in bounds, the handshake budget 3 drives the loop
`while niter >= 0: niter -= 1` through the counter values 3, 2, 1, 0 — four
driver scatter/gather exchanges, not three. -/
theorem c2_budget3_runs_four_passes :
    countDScatter (runMain cfgEx seqEx 3).2 ≠ 3 ∧
      countDScatter (runMain cfgEx seqEx 3).2 = 4 := by
  have h := (count_mainLoop cfgEx seqEx 4 0 (initState cfgEx) 3 (by decide)).1
  exact ⟨by rw [runMain, h]; decide, by rw [runMain, h]⟩

/-- C2 amended: for every iteration budget `N ≥ 0` received at handshake, the
orchestrator executes exactly `N + 1` passes (N+1 driver scatter/gather
exchanges) before teardown — the loop runs while the remaining-iterations
counter is `≥ 0`, decrementing once per pass, so budget 3 yields 4 passes. -/
theorem c2_pass_count (cfg : Config) (seq : ℕ → List ℚ) (niter : ℤ)
    (h : 0 ≤ niter) :
    countDScatter (runMain cfg seq niter).2 = niter.toNat + 1 ∧
      countDGather (runMain cfg seq niter).2 = niter.toNat + 1 := by
  have := count_mainLoop cfg seq (niter.toNat + 1) 0 (initState cfg) niter (by omega)
  exact ⟨this.1, this.2⟩

/-- C2 amended witness: with budget 3 at `cfgEx`, 4 scatter-ins and 4
gather-outs occur on the driver channel. -/
theorem c2_pass_count_witness :
    ((0 : ℤ) ≤ 3) ∧
      (countDScatter (runMain cfgEx seqEx 3).2 = (3 : ℤ).toNat + 1 ∧
        countDGather (runMain cfgEx seqEx 3).2 = (3 : ℤ).toNat + 1) :=
  ⟨by decide, c2_pass_count cfgEx seqEx 3 (by decide)⟩

/-- Reading row `i` after two `set`s at other indices gives the original row. -/
theorem getD_set_set_ne (rows : List (List ℚ)) {i a b : ℕ} (x y : List ℚ)
    (ha : i ≠ a) (hb : i ≠ b) :
    ((rows.set a x).set b y).getD i [] = rows.getD i [] := by
  rw [List.getD_eq_getElem?_getD, List.getElem?_set_ne (Ne.symm hb),
    List.getElem?_set_ne (Ne.symm ha), ← List.getD_eq_getElem?_getD]

/-- Reading the row just written by `set` (at an in-range index). -/
theorem getD_set_self (l : List (List ℚ)) {i : ℕ} (x : List ℚ) (h : i < l.length) :
    (l.set i x).getD i [] = x := by
  rw [List.getD_eq_getElem?_getD, List.getElem?_set_eq_of_lt x h]
  rfl

/-- Reading index `j < n` of a map over `List.range n`. -/
theorem getD_map_range (f : ℕ → ℚ) {n j : ℕ} (h : j < n) (d : ℚ) :
    ((List.range n).map f).getD j d = f j := by
  rw [List.getD_eq_getElem?_getD, List.getElem?_map, List.getElem?_range h]
  rfl

/-- The abundance-scaling loop only overwrites rows in place, so the number of
rows is unchanged. -/
theorem scaleAbund_length (cfg : Config) (params : List ℚ) (rows : List (List ℚ)) :
    (scaleAbund cfg params rows).length = rows.length := by
  rw [scaleAbund]
  generalize List.range cfg.nmolfit = l
  induction l generalizing rows with
  | nil => rfl
  | cons a l ih => rw [List.foldl_cons, ih]; exact List.length_set ..

/-- The H2/He recomputation restores the per-layer total abundance to exactly
1: the metal rows contribute `1 - q`, and the new H2 and He rows contribute
`ratio * q / (1 + ratio) + q / (1 + ratio) = q`. -/
theorem layerAbundSum_updateH2He (cfg : Config) (rows : List (List ℚ)) (j : ℕ)
    (hH2 : cfg.iH2 < cfg.nspecies) (hHe : cfg.iHe < cfg.nspecies)
    (hne : cfg.iH2 ≠ cfg.iHe) (hlen : rows.length = cfg.nspecies)
    (hj : j < cfg.nlayers) (hr : 1 + cfg.ratio j ≠ 0) :
    layerAbundSum cfg (updateH2He cfg rows) j = 1 := by
  classical
  set X := (List.range cfg.nlayers).map
    (fun j' => cfg.ratio j' * (1 - metalSum cfg rows j') / (1 + cfg.ratio j')) with hX
  set Y := (List.range cfg.nlayers).map
    (fun j' => (1 - metalSum cfg rows j') / (1 + cfg.ratio j')) with hY
  have hup : updateH2He cfg rows = (rows.set cfg.iH2 X).set cfg.iHe Y := rfl
  have hrowH2 : ((rows.set cfg.iH2 X).set cfg.iHe Y).getD cfg.iH2 [] = X := by
    rw [List.getD_eq_getElem?_getD, List.getElem?_set_ne hne.symm,
      List.getElem?_set_eq_of_lt X (by rw [hlen]; exact hH2)]
    rfl
  have hrowHe : ((rows.set cfg.iH2 X).set cfg.iHe Y).getD cfg.iHe [] = Y := by
    rw [List.getD_eq_getElem?_getD,
      List.getElem?_set_eq_of_lt Y (by rw [List.length_set, hlen]; exact hHe)]
    rfl
  have eH2 : (((rows.set cfg.iH2 X).set cfg.iHe Y).getD cfg.iH2 []).getD j 0
      = cfg.ratio j * (1 - metalSum cfg rows j) / (1 + cfg.ratio j) := by
    rw [hrowH2, hX]
    exact getD_map_range _ hj 0
  have eHe : (((rows.set cfg.iH2 X).set cfg.iHe Y).getD cfg.iHe []).getD j 0
      = (1 - metalSum cfg rows j) / (1 + cfg.ratio j) := by
    rw [hrowHe, hY]
    exact getD_map_range _ hj 0
  have hmetal : ∑ i ∈ (Finset.range cfg.nspecies).filter
        (fun i => i ≠ cfg.iH2 ∧ i ≠ cfg.iHe),
      ((((rows.set cfg.iH2 X).set cfg.iHe Y).getD i []).getD j 0)
      = metalSum cfg rows j := by
    rw [metalSum]
    refine Finset.sum_congr rfl (fun i hi => ?_)
    rcases Finset.mem_filter.mp hi with ⟨-, hiH2, hiHe⟩
    rw [getD_set_set_ne rows X Y hiH2 hiHe]
  have hfilter : (Finset.range cfg.nspecies).filter
        (fun i => ¬(i ≠ cfg.iH2 ∧ i ≠ cfg.iHe)) = {cfg.iH2, cfg.iHe} := by
    ext i
    simp only [Finset.mem_filter, Finset.mem_range, Finset.mem_insert, Finset.mem_singleton,
      ne_eq, not_and_or, not_not]
    constructor
    · rintro ⟨-, h | h⟩
      · exact Or.inl h
      · exact Or.inr h
    · rintro (rfl | rfl)
      · exact ⟨hH2, Or.inl rfl⟩
      · exact ⟨hHe, Or.inr rfl⟩
  rw [layerAbundSum, hup,
    ← Finset.sum_filter_add_sum_filter_not (Finset.range cfg.nspecies)
      (fun i => i ≠ cfg.iH2 ∧ i ≠ cfg.iHe),
    hmetal, hfilter, Finset.sum_pair hne, eH2, eHe]
  field_simp
  ring

/-- C6: on every pass where the build succeeds and the bounds check passes,
the abundance rows (rows 1..nspecies) sum to 1 at each layer, within 1e-9 —
exactly 1 in fact, because the H2 row is set to `ratio * q / (1 + ratio)` and
the He row to `q / (1 + ratio)` with `q = 1 - (sum of the metal rows)`. -/
theorem c6_layer_abundance_sum (cfg : Config) (s : State) (params : List ℚ) (j : ℕ)
    (hH2 : cfg.iH2 < cfg.nspecies) (hHe : cfg.iHe < cfg.nspecies)
    (hne : cfg.iH2 ≠ cfg.iHe) (hlen : s.abund.length = cfg.nspecies)
    (hj : j < cfg.nlayers) (hr : 1 + cfg.ratio j ≠ 0)
    (hok : outOfBounds cfg (passTemp cfg s params) = false) :
    |layerAbundSum cfg (pass cfg s params).1.abund j - 1| ≤ 1 / 1000000000 := by
  have habund : (pass cfg s params).1.abund
      = updateH2He cfg (scaleAbund cfg params s.abund) := by
    rw [pass_accepted hok]
  rw [habund, layerAbundSum_updateH2He cfg _ j hH2 hHe hne
    (by rw [scaleAbund_length, hlen]) hj hr]
  norm_num

/-- C6 witness: at `cfgEx` the accepted pass `[500, 0]` yields abundance rows
`[[99/125], [99/500], [1/100]]`, which sum to 1 at the single layer. -/
theorem c6_layer_abundance_sum_witness :
    (cfgEx.iH2 < cfgEx.nspecies ∧ cfgEx.iHe < cfgEx.nspecies ∧ cfgEx.iH2 ≠ cfgEx.iHe ∧
      (initState cfgEx).abund.length = cfgEx.nspecies ∧ 0 < cfgEx.nlayers ∧
      1 + cfgEx.ratio 0 ≠ 0 ∧
      outOfBounds cfgEx (passTemp cfgEx (initState cfgEx) [500, 0]) = false) ∧
    |layerAbundSum cfgEx (pass cfgEx (initState cfgEx) [500, 0]).1.abund 0 - 1|
      ≤ 1 / 1000000000 :=
  ⟨⟨by decide, by decide, by decide, by decide, by decide,
    by norm_num [Config.ratio, atmCol, cfgEx], by decide⟩,
    c6_layer_abundance_sum cfgEx (initState cfgEx) [500, 0] 0 (by decide) (by decide)
      (by decide) (by decide) (by decide) (by norm_num [Config.ratio, atmCol, cfgEx])
      (by decide)⟩

/-- Elementwise `(a / b) * r * r` over a zip, written index-wise: the numpy
expression `(samples / flux) * rprs * rprs` equals the list whose entry `k` is
`samples[k] / flux[k] * rprs^2`. -/
theorem zip_div_scale_eq (a : List ℚ) (b : List ℚ) (r : ℚ) (h : a.length ≤ b.length) :
    (a.zip b).map (fun p => p.1 / p.2 * r * r)
      = (List.range a.length).map (fun k => a.getD k 0 / b.getD k 0 * r ^ 2) := by
  induction a generalizing b with
  | nil => simp
  | cons x xs ih =>
    cases b with
    | nil => simp at h
    | cons y ys =>
      have hh : x / y * r * r = x / y * r ^ 2 := by ring
      simp only [List.zip_cons_cons, List.map_cons, List.length_cons,
        List.range_succ_eq_map, List.map_map]
      rw [hh, ih ys (by simpa using h)]
      refine congrArg _ (List.map_congr_left (fun k _ => ?_))
      simp [Function.comp, List.getD_cons_succ]

/-- C8: for each filter `i` on an in-bounds pass, the observable is produced
by the external band integrator: in eclipse mode from the spectrum samples at
the filter's indices divided elementwise by the filter's stellar flux and
scaled by `(Rp/Rs)^2`, and in transit mode from the raw spectrum samples at
the filter's indices — in both cases against the spectral grid, the filter's
normalized response, and the filter's index set. -/
theorem c8_reducer_modes (cfg : Config) (spectrum prev : List ℚ) (i : ℕ)
    (hi : i < cfg.nfilters)
    (hlen : (cfg.wnindices.getD i []).length ≤ (cfg.istarfl.getD i []).length) :
    (cfg.solution = "eclipse" →
      (reduceSpectrum cfg spectrum prev).getD i 0
        = cfg.bandintegrate
            ((List.range (cfg.wnindices.getD i []).length).map
              (fun k => (sampleAt spectrum (cfg.wnindices.getD i [])).getD k 0
                / (cfg.istarfl.getD i []).getD k 0 * cfg.rprs ^ 2))
            cfg.specwn (cfg.nifilter.getD i []) (cfg.wnindices.getD i [])) ∧
    (cfg.solution = "transit" →
      (reduceSpectrum cfg spectrum prev).getD i 0
        = cfg.bandintegrate (sampleAt spectrum (cfg.wnindices.getD i []))
            cfg.specwn (cfg.nifilter.getD i []) (cfg.wnindices.getD i [])) := by
  have hval : (reduceSpectrum cfg spectrum prev).getD i 0
      = (if cfg.solution = "eclipse" then
          cfg.bandintegrate
            (((sampleAt spectrum (cfg.wnindices.getD i [])).zip (cfg.istarfl.getD i [])).map
              (fun p => p.1 / p.2 * cfg.rprs * cfg.rprs))
            cfg.specwn (cfg.nifilter.getD i []) (cfg.wnindices.getD i [])
        else if cfg.solution = "transit" then
          cfg.bandintegrate (sampleAt spectrum (cfg.wnindices.getD i []))
            cfg.specwn (cfg.nifilter.getD i []) (cfg.wnindices.getD i [])
        else prev.getD i 0) := by
    rw [reduceSpectrum]
    exact getD_map_range _ hi 0
  constructor
  · intro he
    rw [hval, if_pos he]
    have hz := zip_div_scale_eq (sampleAt spectrum (cfg.wnindices.getD i []))
      (cfg.istarfl.getD i []) cfg.rprs (by simpa [sampleAt] using hlen)
    rw [hz]
    have hlen2 : (sampleAt spectrum (cfg.wnindices.getD i [])).length
        = (cfg.wnindices.getD i []).length := by simp [sampleAt]
    rw [hlen2]
  · intro ht
    rw [hval, if_neg (by simp [ht]), if_pos ht]

/-- C8 witness: at `cfgEx` (transit mode, one filter) with a one-sample
spectrum. -/
theorem c8_reducer_modes_witness :
    (0 < cfgEx.nfilters ∧
      (cfgEx.wnindices.getD 0 []).length ≤ (cfgEx.istarfl.getD 0 []).length) ∧
    ((cfgEx.solution = "eclipse" →
      (reduceSpectrum cfgEx [2] [0]).getD 0 0
        = cfgEx.bandintegrate
            ((List.range (cfgEx.wnindices.getD 0 []).length).map
              (fun k => (sampleAt [2] (cfgEx.wnindices.getD 0 [])).getD k 0
                / (cfgEx.istarfl.getD 0 []).getD k 0 * cfgEx.rprs ^ 2))
            cfgEx.specwn (cfgEx.nifilter.getD 0 []) (cfgEx.wnindices.getD 0 [])) ∧
    (cfgEx.solution = "transit" →
      (reduceSpectrum cfgEx [2] [0]).getD 0 0
        = cfgEx.bandintegrate (sampleAt [2] (cfgEx.wnindices.getD 0 []))
            cfgEx.specwn (cfgEx.nifilter.getD 0 []) (cfgEx.wnindices.getD 0 []))) :=
  ⟨⟨by decide, by decide⟩, c8_reducer_modes cfgEx [2] [0] 0 (by decide) (by decide)⟩

end BARTfunc
